import Mathlib

/-!
Verification development for `stereo-es2gears.c`, a stereoscopic-3D port of
es2gears that negotiates a stereo display mode over DRM/KMS and drives a
page-flip render loop.

The definitions below are a shallow embedding of the C source:

* `get_layout_for_mode` embeds the layout calculator (lines 349-408): the
  `assert(0)` default branch is modelled as `none`.
* `get_stereo_mode`, `get_mode_rank`, `is_chosen_mode`, `find_mode` embed the
  mode selector (lines 273-347).  In `is_chosen_mode`, the C dereferences the
  result of `get_stereo_mode` without a null check; that crash is modelled as
  `none`, which `find_mode` propagates.
* `get_connector`, `crtc_scan`, `find_crtc_from_encoders`, `stereo_find_crtc`,
  `stereo_setup_dev` embed the output binder (lines 218-271 and 410-511).
  Functions that in C call into the kernel (`drmModeGetConnector`,
  `drmModeGetEncoder`) take an oracle `Nat → Option _` describing what the
  device returns.
* `free_current_bo`, `set_initial_crtc`, `swap_flip`, `swap`, `runSwaps` embed
  the presenter (lines 594-606 and 788-868) as a state-transition function.
  Each call's interaction with the hardware (whether `drmModeAddFB`,
  `drmModeGetCrtc`, `drmModeSetCrtc`, `drmModePageFlip` succeed, and which
  buffer `gbm_surface_lock_front_buffer` hands out) is an explicit `SwapEnv`
  input, and the call's externally visible actions are returned as a list of
  `SwapEvent`s in program order.
* `atoi`, `optstring_lookup`, `apply_option`, `process_args`,
  `process_options` embed the command-line parsing (lines 1655-1694),
  including the behaviour of GNU `getopt` with the option string `"-c:l:h"`.
-/

namespace StereoGears

/-! ## DRM constants (from `drm_mode.h` / `xf86drmMode.h`) -/

/-- `DRM_MODE_FLAG_3D_NONE` = `0 << 14`. -/
def DRM_MODE_FLAG_3D_NONE : Nat := 0
/-- `DRM_MODE_FLAG_3D_FRAME_PACKING` = `1 << 14`. -/
def DRM_MODE_FLAG_3D_FRAME_PACKING : Nat := 0x4000
/-- `DRM_MODE_FLAG_3D_FIELD_ALTERNATIVE` = `2 << 14`. -/
def DRM_MODE_FLAG_3D_FIELD_ALTERNATIVE : Nat := 0x8000
/-- `DRM_MODE_FLAG_3D_LINE_ALTERNATIVE` = `3 << 14`. -/
def DRM_MODE_FLAG_3D_LINE_ALTERNATIVE : Nat := 0xC000
/-- `DRM_MODE_FLAG_3D_SIDE_BY_SIDE_FULL` = `4 << 14`. -/
def DRM_MODE_FLAG_3D_SIDE_BY_SIDE_FULL : Nat := 0x10000
/-- `DRM_MODE_FLAG_3D_L_DEPTH` = `5 << 14`. -/
def DRM_MODE_FLAG_3D_L_DEPTH : Nat := 0x14000
/-- `DRM_MODE_FLAG_3D_L_DEPTH_GFX_GFX_DEPTH` = `6 << 14`. -/
def DRM_MODE_FLAG_3D_L_DEPTH_GFX_GFX_DEPTH : Nat := 0x18000
/-- `DRM_MODE_FLAG_3D_TOP_AND_BOTTOM` = `7 << 14`. -/
def DRM_MODE_FLAG_3D_TOP_AND_BOTTOM : Nat := 0x1C000
/-- `DRM_MODE_FLAG_3D_SIDE_BY_SIDE_HALF` = `8 << 14`. -/
def DRM_MODE_FLAG_3D_SIDE_BY_SIDE_HALF : Nat := 0x20000
/-- `DRM_MODE_FLAG_3D_MASK` = `0x1f << 14`. -/
def DRM_MODE_FLAG_3D_MASK : Nat := 0x7C000

/-- `DRM_MODE_CONNECTED` from the `drmModeConnection` enumeration. -/
def DRM_MODE_CONNECTED : Nat := 1
/-- `DRM_MODE_DISCONNECTED` from the `drmModeConnection` enumeration. -/
def DRM_MODE_DISCONNECTED : Nat := 2

/-! ## Data model -/

/-- The fields of `drmModeModeInfo` that the program reads.  `hdisplay`,
`vdisplay` and `vtotal` are `uint16_t` in C and `flags` is `uint32_t`; all the
arithmetic the program performs on them fits in `uint32_t`, so they are
embedded as `Nat`. -/
structure ModeInfo where
  hdisplay : Nat
  vdisplay : Nat
  vtotal : Nat
  flags : Nat
deriving DecidableEq

/-- `struct mode_layout` (lines 71-82): the derived buffer and per-eye
geometry.  All fields are `uint32_t` in C. -/
structure ModeLayout where
  buffer_width : Nat
  buffer_height : Nat
  eye_width : Nat
  eye_height : Nat
  virtual_eye_width : Nat
  virtual_eye_height : Nat
  right_eye_x : Nat
  left_eye_y : Nat
deriving DecidableEq

/-- `struct stereo_options` (lines 109-113). -/
structure StereoOptions where
  card : Option String
  stereo_layout : Option String
  connector : Nat
deriving DecidableEq

/-! ## LayoutCalculator: `get_layout_for_mode` (lines 349-408)

The C switches on `mode->flags & DRM_MODE_FLAG_3D_MASK` and fills in the
layout; the `default` branch is `assert(0)`, modelled as `none`. -/

/-- Embedding of `get_layout_for_mode`.  `none` is the `assert(0)` branch. -/
def get_layout_for_mode (mode : ModeInfo) : Option ModeLayout :=
  let m3d := mode.flags &&& DRM_MODE_FLAG_3D_MASK
  if m3d = DRM_MODE_FLAG_3D_NONE then
    some { buffer_width := mode.hdisplay
           buffer_height := mode.vdisplay
           eye_width := mode.hdisplay
           eye_height := mode.vdisplay
           virtual_eye_width := mode.hdisplay
           virtual_eye_height := mode.vdisplay
           -- the C puts the right eye off the screen to get rid of it
           right_eye_x := mode.hdisplay
           left_eye_y := 0 }
  else if m3d = DRM_MODE_FLAG_3D_SIDE_BY_SIDE_HALF then
    some { buffer_width := mode.hdisplay
           buffer_height := mode.vdisplay
           eye_width := mode.hdisplay / 2
           eye_height := mode.vdisplay
           virtual_eye_width := mode.hdisplay
           virtual_eye_height := mode.vdisplay
           right_eye_x := mode.hdisplay / 2
           left_eye_y := 0 }
  else if m3d = DRM_MODE_FLAG_3D_SIDE_BY_SIDE_FULL then
    some { buffer_width := mode.hdisplay * 2
           buffer_height := mode.vdisplay
           eye_width := mode.hdisplay
           eye_height := mode.vdisplay
           virtual_eye_width := mode.hdisplay
           virtual_eye_height := mode.vdisplay
           right_eye_x := mode.hdisplay
           left_eye_y := 0 }
  else if m3d = DRM_MODE_FLAG_3D_TOP_AND_BOTTOM then
    some { buffer_width := mode.hdisplay
           buffer_height := mode.vdisplay
           eye_width := mode.hdisplay
           eye_height := mode.vdisplay / 2
           virtual_eye_width := mode.hdisplay
           virtual_eye_height := mode.vdisplay
           right_eye_x := 0
           left_eye_y := mode.vdisplay / 2 }
  else if m3d = DRM_MODE_FLAG_3D_FRAME_PACKING then
    some { buffer_width := mode.hdisplay
           buffer_height := mode.vtotal + mode.vdisplay
           eye_width := mode.hdisplay
           eye_height := mode.vdisplay
           virtual_eye_width := mode.hdisplay
           virtual_eye_height := mode.vdisplay
           right_eye_x := 0
           left_eye_y := mode.vtotal }
  else
    none

/-! ## ModeSelector: `get_stereo_mode`, `get_mode_rank`, `is_chosen_mode`,
`find_mode` (lines 130-147 and 273-347) -/

/-- `struct stereo_mode` (lines 130-134). -/
structure StereoMode where
  mode_number : Nat
  short_name : String
  long_name : String
deriving DecidableEq

/-- The `stereo_modes` table (lines 136-147). -/
def stereo_modes : List StereoMode :=
  [ { mode_number := DRM_MODE_FLAG_3D_NONE, short_name := "none", long_name := "none" },
    { mode_number := DRM_MODE_FLAG_3D_FRAME_PACKING, short_name := "fp", long_name := "frame packing" },
    { mode_number := DRM_MODE_FLAG_3D_FIELD_ALTERNATIVE, short_name := "fa", long_name := "field alternative" },
    { mode_number := DRM_MODE_FLAG_3D_LINE_ALTERNATIVE, short_name := "la", long_name := "line alternative" },
    { mode_number := DRM_MODE_FLAG_3D_SIDE_BY_SIDE_FULL, short_name := "sbsf", long_name := "side by side full" },
    { mode_number := DRM_MODE_FLAG_3D_L_DEPTH, short_name := "ld", long_name := "l depth" },
    { mode_number := DRM_MODE_FLAG_3D_L_DEPTH_GFX_GFX_DEPTH, short_name := "ldggd", long_name := "l depth gfx gfx depth" },
    { mode_number := DRM_MODE_FLAG_3D_TOP_AND_BOTTOM, short_name := "tb", long_name := "top and bottom" },
    { mode_number := DRM_MODE_FLAG_3D_SIDE_BY_SIDE_HALF, short_name := "sbsh", long_name := "side by side half" } ]

/-- The search loop of `get_stereo_mode` (lines 273-283). -/
def get_stereo_mode_search : List StereoMode → Nat → Option StereoMode
  | [], _ => none
  | sm :: rest, n =>
    if sm.mode_number = n then some sm else get_stereo_mode_search rest n

/-- `get_stereo_mode` (lines 273-283): look the masked flag value up in the
`stereo_modes` table; `none` models the C returning `NULL`. -/
def get_stereo_mode (mode_number : Nat) : Option StereoMode :=
  get_stereo_mode_search stereo_modes mode_number

/-- The static `ranks[]` array inside `get_mode_rank` (lines 288-297),
in source order. -/
def mode_ranks : List Nat :=
  [ DRM_MODE_FLAG_3D_NONE,
    DRM_MODE_FLAG_3D_SIDE_BY_SIDE_HALF,
    DRM_MODE_FLAG_3D_TOP_AND_BOTTOM,
    DRM_MODE_FLAG_3D_SIDE_BY_SIDE_FULL,
    DRM_MODE_FLAG_3D_FRAME_PACKING ]

/-- The search loop of `get_mode_rank` (lines 306-310): the index of `layout`
in the array, or `-1` when absent. -/
def rank_search : List Nat → Nat → Nat → Int
  | [], _, _ => -1
  | r :: rest, layout, i =>
    if r = layout then (i : Int) else rank_search rest layout (i + 1)

/-- The rank `get_mode_rank` assigns to a masked 3D flag value. -/
def rank3d (layout : Nat) : Int := rank_search mode_ranks layout 0

/-- `get_mode_rank` (lines 285-311).  The C takes a possibly-`NULL`
`drmModeModeInfo *`; `none` is the `NULL` case. -/
def get_mode_rank : Option ModeInfo → Int
  | none => -1
  | some m => rank3d (m.flags &&& DRM_MODE_FLAG_3D_MASK)

/-- `is_chosen_mode` (lines 313-330).  When `options->stereo_layout` is set,
the C dereferences `get_stereo_mode(...)->short_name` without a null check;
the outer `none` models that crash. -/
def is_chosen_mode (mode : ModeInfo) (options : StereoOptions)
    (old_mode : Option ModeInfo) : Option Bool :=
  match options.stereo_layout with
  | some layout =>
    match get_stereo_mode (mode.flags &&& DRM_MODE_FLAG_3D_MASK) with
    | none => none
    | some sm =>
      if sm.short_name ≠ layout then some false
      else
        some (decide (get_mode_rank (some mode) ≠ -1 ∧
                      get_mode_rank old_mode < get_mode_rank (some mode)))
  | none =>
    some (decide (get_mode_rank (some mode) ≠ -1 ∧
                  get_mode_rank old_mode < get_mode_rank (some mode)))

/-- The loop of `find_mode` (lines 339-344), carrying `old_mode` (the running
best, which is also the mode stored into `dev->mode`).  The outer `none`
propagates the crash case of `is_chosen_mode`. -/
def find_mode_from : StereoOptions → List ModeInfo → Option ModeInfo →
    Option (Option ModeInfo)
  | _, [], old => some old
  | options, m :: rest, old =>
    match is_chosen_mode m options old with
    | none => none
    | some true => find_mode_from options rest (some m)
    | some false => find_mode_from options rest old

/-- `find_mode` (lines 332-347).  `some (some m)` is success with `dev->mode`
equal to `m`; `some none` is the `-ENOENT` return. -/
def find_mode (modes : List ModeInfo) (options : StereoOptions) :
    Option (Option ModeInfo) :=
  find_mode_from options modes none

/-- Reference form of the `find_mode` loop when no layout is requested: keep
the running best, replacing it only on a strictly greater rank. -/
def run_best : Option ModeInfo → List ModeInfo → Option ModeInfo
  | old, [] => old
  | old, m :: rest =>
    if get_mode_rank old < get_mode_rank (some m) then run_best (some m) rest
    else run_best old rest

/-! ## OutputBinder: `get_connector`, `stereo_find_crtc`, `stereo_setup_dev`
(lines 218-271, 410-454 and 482-511) -/

/-- The fields of `drmModeConnector` that the program reads. -/
structure Connector where
  connector_id : Nat
  connection : Nat
  encoder_id : Nat
  encoders : List Nat
  modes : List ModeInfo
deriving DecidableEq

/-- The fields of `drmModeEncoder` that the program reads. -/
structure Encoder where
  encoder_id : Nat
  crtc_id : Nat
  possible_crtcs : Nat
deriving DecidableEq

/-- The fields of `drmModeRes` that the program reads: the connector id array
and the global CRTC id array. -/
structure DrmRes where
  connectors : List Nat
  crtcs : List Nat
deriving DecidableEq

/-- The selection test applied to each fetched connector in `get_connector`
(lines 500-501): the user asked for no particular connector, or the ids
match. -/
def conn_matches (options : StereoOptions) (conn : Connector) : Bool :=
  options.connector == 0 || conn.connector_id == options.connector

/-- `get_connector` (lines 482-511).  `getConn` is the oracle for
`drmModeGetConnector`; a fetch failure makes the C return `NULL` at once,
and exhausting the list also returns `NULL`, so both are `none`. -/
def get_connector (getConn : Nat → Option Connector) (ids : List Nat)
    (options : StereoOptions) : Option Connector :=
  match ids with
  | [] => none
  | i :: rest =>
    match getConn i with
    | none => none
    | some conn =>
      if conn_matches options conn then some conn
      else get_connector getConn rest options

/-- The inner CRTC loop of `stereo_find_crtc` (lines 249-263): walk the global
CRTC array with index `j`, skip CRTCs the encoder's `possible_crtcs` bitmask
does not permit, and take the first entry that is a valid (nonzero) id. -/
def crtc_scan (possible : Nat) : Nat → List Nat → Option Nat
  | _, [] => none
  | j, c :: rest =>
    if possible &&& (1 <<< j) ≠ 0 ∧ 0 < c then some c
    else crtc_scan possible (j + 1) rest

/-- The encoder loop of `stereo_find_crtc` (lines 239-266): fetch each encoder
the connector could use (skipping fetch failures, as the C `continue`s) and
scan the CRTC array with its bitmask. -/
def find_crtc_from_encoders (getEnc : Nat → Option Encoder) (crtcs : List Nat) :
    List Nat → Option Nat
  | [] => none
  | eid :: rest =>
    match getEnc eid with
    | none => find_crtc_from_encoders getEnc crtcs rest
    | some enc =>
      match crtc_scan enc.possible_crtcs 0 crtcs with
      | some c => some c
      | none => find_crtc_from_encoders getEnc crtcs rest

/-- `stereo_find_crtc` (lines 218-271).  If the connector has a current
encoder, the C dereferences `drmModeGetEncoder`'s result without a null check
(outer `none` models that crash); `some none` is the `-ENOENT` return and
`some (some c)` stores `c` into `dev->crtc`. -/
def stereo_find_crtc (getEnc : Nat → Option Encoder) (res : DrmRes)
    (conn : Connector) : Option (Option Nat) :=
  if conn.encoder_id ≠ 0 then
    match getEnc conn.encoder_id with
    | none => none
    | some enc =>
      if 0 < enc.crtc_id then some (some enc.crtc_id)
      else some (find_crtc_from_encoders getEnc res.crtcs conn.encoders)
  else some (find_crtc_from_encoders getEnc res.crtcs conn.encoders)

/-- The error outcomes of `stereo_setup_dev`: `-ENOENT` for a disconnected
connector, for no usable mode, and for no usable CRTC respectively. -/
inductive SetupError where
  | notConnected
  | noMode
  | noCrtc
deriving DecidableEq

/-- The parts of `struct gbm_dev` that `stereo_setup_dev` fills in on
success. -/
structure DevSetup where
  mode : ModeInfo
  layout : ModeLayout
  crtc : Nat
deriving DecidableEq

deriving instance DecidableEq for Except

/-- `stereo_setup_dev` (lines 410-454): reject a connector that is not
connected, select a mode, compute its layout, and find a CRTC.  The outer
`none` propagates the crash cases of the callees (including the layout
calculator's `assert(0)`). -/
def stereo_setup_dev (getEnc : Nat → Option Encoder) (res : DrmRes)
    (conn : Connector) (options : StereoOptions) :
    Option (Except SetupError DevSetup) :=
  if conn.connection ≠ DRM_MODE_CONNECTED then
    some (Except.error SetupError.notConnected)
  else
    match find_mode conn.modes options with
    | none => none
    | some none => some (Except.error SetupError.noMode)
    | some (some mode) =>
      match get_layout_for_mode mode with
      | none => none
      | some layout =>
        match stereo_find_crtc getEnc res conn with
        | none => none
        | some none => some (Except.error SetupError.noCrtc)
        | some (some crtc) => some (Except.ok { mode := mode, layout := layout, crtc := crtc })

/-! ## Presenter: `free_current_bo`, `set_initial_crtc`, `swap`, `wait_swap`
(lines 594-606 and 788-868) -/

/-- The presenter state: `dev->saved_crtc` (the captured pre-existing CRTC
configuration, `none` when never captured), `dev->pending_swap`, and the
swap chain's `context->current_fb_id` / `context->current_bo` (`0` and `NULL`
when no buffer is current, as in the C). -/
structure SwapState where
  saved_crtc : Option Nat
  pending_swap : Bool
  current_fb_id : Nat
  current_bo : Option Nat
deriving DecidableEq

/-- The per-call hardware responses consumed by one `swap` call: the buffer
handle `gbm_surface_lock_front_buffer` hands out, the framebuffer id
`drmModeAddFB` allocates (`none` on failure), the configuration
`drmModeGetCrtc` captures (`none` when it returns `NULL`), and whether
`drmModeSetCrtc` / `drmModePageFlip` succeed. -/
structure SwapEnv where
  bo : Nat
  addFB : Option Nat
  getCrtc : Option Nat
  setCrtcOk : Bool
  pageFlipOk : Bool
deriving DecidableEq

/-- The externally visible actions of one `swap` call, in program order. -/
inductive SwapEvent where
  | swapBuffers
  | lockFrontBuffer (bo : Nat)
  | addFB (ok : Bool)
  | getCrtcCapture
  | setCrtc (ok : Bool)
  | pageFlip (ok : Bool)
  | flipComplete
  | rmFB (fb : Nat)
  | releaseBuffer (bo : Nat)
deriving DecidableEq

/-- `free_current_bo` (lines 594-606): unregister the current framebuffer if
there is one, then return the current buffer to the surface if there is
one. -/
def free_current_bo (st : SwapState) : SwapState × List SwapEvent :=
  let ev1 : List SwapEvent :=
    if st.current_fb_id ≠ 0 then [SwapEvent.rmFB st.current_fb_id] else []
  let ev2 : List SwapEvent :=
    match st.current_bo with
    | some b => [SwapEvent.releaseBuffer b]
    | none => []
  ({ st with current_fb_id := 0, current_bo := none }, ev1 ++ ev2)

/-- `set_initial_crtc` (lines 801-817): capture the CRTC's pre-existing
configuration into `dev->saved_crtc`, then apply the chosen mode.  The `Bool`
is success (the C returns `0` on success and `errno` on failure). -/
def set_initial_crtc (st : SwapState) (env : SwapEnv) :
    SwapState × Bool × List SwapEvent :=
  ({ st with saved_crtc := env.getCrtc },
   env.setCrtcOk,
   [SwapEvent.getCrtcCapture, SwapEvent.setCrtc env.setCrtcOk])

/-- The page-flip tail of `swap` (lines 851-867): request the flip; on
success set `pending_swap`, block in `wait_swap` until the completion event
clears it, release the previously displayed pair, and make the new pair
current.  On failure return with the state unchanged. -/
def swap_flip (st : SwapState) (fb_id : Nat) (env : SwapEnv) :
    SwapState × List SwapEvent :=
  if env.pageFlipOk then
    let stW := { st with pending_swap := false }
    let fr := free_current_bo stW
    ({ fr.1 with current_bo := some env.bo, current_fb_id := fb_id },
     [SwapEvent.pageFlip true, SwapEvent.flipComplete] ++ fr.2)
  else (st, [SwapEvent.pageFlip false])

/-- `swap` (lines 819-868): flush GL output, lock the new front buffer,
register it with `drmModeAddFB` (on failure only a message is printed and the
call returns), do the one-time modeset when `saved_crtc` is still `NULL`
(returning early if it fails), then page-flip. -/
def swap (st : SwapState) (env : SwapEnv) : SwapState × List SwapEvent :=
  let pre : List SwapEvent :=
    [SwapEvent.swapBuffers, SwapEvent.lockFrontBuffer env.bo]
  match env.addFB with
  | none => (st, pre ++ [SwapEvent.addFB false])
  | some fb_id =>
    match st.saved_crtc with
    | none =>
      let r := set_initial_crtc st env
      if r.2.1 then
        let f := swap_flip r.1 fb_id env
        (f.1, pre ++ [SwapEvent.addFB true] ++ r.2.2 ++ f.2)
      else (r.1, pre ++ [SwapEvent.addFB true] ++ r.2.2)
    | some _ =>
      let f := swap_flip st fb_id env
      (f.1, pre ++ [SwapEvent.addFB true] ++ f.2)

/-- Iterate `swap` over a sequence of per-call hardware responses, collecting
each call's event trace. -/
def runSwaps : SwapState → List SwapEnv → SwapState × List (List SwapEvent)
  | st, [] => (st, [])
  | st, e :: es =>
    let r := swap st e
    let rr := runSwaps r.1 es
    (rr.1, r.2 :: rr.2)

/-! ## Trace predicates used by the presenter theorems -/

/-- Scanner for the resource-release discipline of one `swap` call.  `p` is a
phase: `0` before a successful flip request, `1` after `drmModePageFlip`
succeeded, `2` after the completion event was observed.  A release event is
admissible only in phase `2`, must name the previously current pair
(`oldfb` / `oldbo`), and a framebuffer is only unregistered when one was
registered (`oldfb ≠ 0`); the completion event is admissible only after a
successful flip request. -/
def release_phase (oldfb : Nat) (oldbo : Option Nat) : Nat → List SwapEvent → Bool
  | _, [] => true
  | p, e :: rest =>
    match e with
    | SwapEvent.pageFlip true => release_phase oldfb oldbo 1 rest
    | SwapEvent.flipComplete => decide (1 ≤ p) && release_phase oldfb oldbo 2 rest
    | SwapEvent.rmFB f =>
      decide (2 ≤ p ∧ f = oldfb ∧ f ≠ 0) && release_phase oldfb oldbo p rest
    | SwapEvent.releaseBuffer b =>
      decide (2 ≤ p ∧ oldbo = some b) && release_phase oldfb oldbo p rest
    | _ => release_phase oldfb oldbo p rest

/-- Whether a trace contains a modeset (`drmModeSetCrtc` attempt). -/
def has_modeset (tr : List SwapEvent) : Bool :=
  tr.any fun e =>
    match e with
    | SwapEvent.setCrtc _ => true
    | _ => false

/-- Whether a trace contains a capture of the pre-existing CRTC configuration
(`drmModeGetCrtc`). -/
def has_capture (tr : List SwapEvent) : Bool :=
  tr.any fun e =>
    match e with
    | SwapEvent.getCrtcCapture => true
    | _ => false

/-- A present call reaches the display step exactly when `drmModeAddFB`
succeeds. -/
def reaches_display (e : SwapEnv) : Bool := e.addFB.isSome

/-- For a sequence of calls, which ones should perform the one-time modeset:
the first call that reaches the display step, and no other. -/
def modeset_pattern : Bool → List SwapEnv → List Bool
  | _, [] => []
  | done, e :: es =>
    let m := !done && reaches_display e
    m :: modeset_pattern (done || m) es

/-- The configuration captured by the first call that reaches the display
step, if any. -/
def first_capture : List SwapEnv → Option Nat
  | [] => none
  | e :: es => if reaches_display e then e.getCrtc else first_capture es

/-! ## CLI: `atoi`, GNU `getopt` with `"-c:l:h"`, `process_options`
(lines 1655-1694) -/

/-- Digit-accumulation loop of C `atoi`. -/
def atoi_digits : List Char → Nat → Nat
  | [], acc => acc
  | c :: rest, acc =>
    if c.isDigit then atoi_digits rest (acc * 10 + (c.toNat - 48)) else acc

/-- Leading-whitespace skip of C `atoi`. -/
def atoi_skip_space : List Char → List Char
  | [] => []
  | c :: rest => if c.isWhitespace then atoi_skip_space rest else c :: rest

/-- Sign handling of C `atoi`. -/
def atoi_core : List Char → Int
  | [] => 0
  | c :: rest =>
    if c = '-' then -(Int.ofNat (atoi_digits rest 0))
    else if c = '+' then Int.ofNat (atoi_digits rest 0)
    else Int.ofNat (atoi_digits (c :: rest) 0)

/-- C `atoi`. -/
def atoi (s : String) : Int := atoi_core (atoi_skip_space s.toList)

/-- The `options->connector = atoi(optarg)` assignment: the `int` result is
converted to `uint32_t`. -/
def atoi_u32 (s : String) : Nat := (atoi s % (2 ^ 32 : Int)).toNat

/-- The option string passed to `getopt` (line 1658). -/
def stereo_optstring : String := "-c:l:h"

/-- GNU `getopt` consumes a leading `-` or `+` of the option string as an
ordering flag before looking characters up. -/
def strip_mode : List Char → List Char
  | '-' :: rest => rest
  | '+' :: rest => rest
  | l => l

/-- `strchr`-style lookup of an option character: `none` when `c` is not an
option character (`getopt` reports `?`), otherwise whether the option takes
an argument (a following `:`).  `getopt` never treats `:` itself as a valid
option character. -/
def opt_search : List Char → Char → Option Bool
  | [], _ => none
  | a :: rest, c =>
    if a = c ∧ c ≠ ':' then some (decide (rest.head? = some ':'))
    else opt_search rest c

/-- Lookup of an option character in an option string. -/
def optstring_lookup (s : String) (c : Char) : Option Bool :=
  opt_search (strip_mode s.toList) c

/-- The argument-taking cases of the `switch` in `process_options`
(lines 1666-1690).  The `d` case exists in the C but is dead code: `d` is not
in the option string, so `getopt` never returns it. -/
def apply_option (options : StereoOptions) (c : Char) (arg : String) :
    StereoOptions :=
  if c = 'd' then { options with card := some arg }
  else if c = 'c' then { options with connector := atoi_u32 arg }
  else if c = 'l' then { options with stereo_layout := some arg }
  else options

/-- The outcomes of `process_options`: normal return `0`, the `exit(0)`
inside `usage()` reached from `-h`, and the `EXIT_FAILURE` returns. -/
inductive ProcResult where
  | ok (options : StereoOptions)
  | exitUsage
  | fail
deriving DecidableEq

/-- The `getopt` loop of `process_options` (lines 1665-1691) over the
arguments after `argv[0]`, combined with the `switch`.  Because the option
string starts with `-`, `getopt` returns every non-option argument as
character `\1`, which the `switch` rejects with `EXIT_FAILURE`; `--` ends
option scanning; an unknown option or a missing required argument is `?` or
`:`, also rejected; `-h` reaches `usage()`, which exits.  The only option
characters in the option string are `c` and `l` (with arguments) and `h`. -/
def process_args : StereoOptions → List String → ProcResult
  | opts, [] => ProcResult.ok opts
  | opts, arg :: rest =>
    match arg.toList with
    | '-' :: '-' :: [] => ProcResult.ok opts
    | '-' :: c :: cs =>
      match optstring_lookup stereo_optstring c with
      | none => ProcResult.fail
      | some true =>
        match cs with
        | [] =>
          match rest with
          | [] => ProcResult.fail
          | a :: rest2 => process_args (apply_option opts c a) rest2
        | _ :: _ => process_args (apply_option opts c (String.mk cs)) rest
      | some false =>
        if c = 'h' then ProcResult.exitUsage else ProcResult.fail
    | _ => ProcResult.fail

/-- `process_options` (lines 1655-1694): zero the options (`card = NULL`,
`stereo_layout = NULL`, `connector = 0`) and run the `getopt` loop. -/
def process_options (args : List String) : ProcResult :=
  process_args { card := none, stereo_layout := none, connector := 0 } args

/-! ## Layout lemmas -/

/-- Evaluation of the layout calculator on the `DRM_MODE_FLAG_3D_NONE`
branch. -/
lemma layout_of_none3d (m : ModeInfo)
    (h : m.flags &&& DRM_MODE_FLAG_3D_MASK = DRM_MODE_FLAG_3D_NONE) :
    get_layout_for_mode m =
      some { buffer_width := m.hdisplay, buffer_height := m.vdisplay,
             eye_width := m.hdisplay, eye_height := m.vdisplay,
             virtual_eye_width := m.hdisplay, virtual_eye_height := m.vdisplay,
             right_eye_x := m.hdisplay, left_eye_y := 0 } := by
  simp [get_layout_for_mode, h]

/-- Evaluation of the layout calculator on the side-by-side-half branch. -/
lemma layout_of_sbsh (m : ModeInfo)
    (h : m.flags &&& DRM_MODE_FLAG_3D_MASK = DRM_MODE_FLAG_3D_SIDE_BY_SIDE_HALF) :
    get_layout_for_mode m =
      some { buffer_width := m.hdisplay, buffer_height := m.vdisplay,
             eye_width := m.hdisplay / 2, eye_height := m.vdisplay,
             virtual_eye_width := m.hdisplay, virtual_eye_height := m.vdisplay,
             right_eye_x := m.hdisplay / 2, left_eye_y := 0 } := by
  simp [get_layout_for_mode, h, DRM_MODE_FLAG_3D_NONE,
    DRM_MODE_FLAG_3D_SIDE_BY_SIDE_HALF]

/-- Evaluation of the layout calculator on the side-by-side-full branch. -/
lemma layout_of_sbsf (m : ModeInfo)
    (h : m.flags &&& DRM_MODE_FLAG_3D_MASK = DRM_MODE_FLAG_3D_SIDE_BY_SIDE_FULL) :
    get_layout_for_mode m =
      some { buffer_width := m.hdisplay * 2, buffer_height := m.vdisplay,
             eye_width := m.hdisplay, eye_height := m.vdisplay,
             virtual_eye_width := m.hdisplay, virtual_eye_height := m.vdisplay,
             right_eye_x := m.hdisplay, left_eye_y := 0 } := by
  simp [get_layout_for_mode, h, DRM_MODE_FLAG_3D_NONE,
    DRM_MODE_FLAG_3D_SIDE_BY_SIDE_HALF, DRM_MODE_FLAG_3D_SIDE_BY_SIDE_FULL]

/-- Evaluation of the layout calculator on the top-and-bottom branch. -/
lemma layout_of_tb (m : ModeInfo)
    (h : m.flags &&& DRM_MODE_FLAG_3D_MASK = DRM_MODE_FLAG_3D_TOP_AND_BOTTOM) :
    get_layout_for_mode m =
      some { buffer_width := m.hdisplay, buffer_height := m.vdisplay,
             eye_width := m.hdisplay, eye_height := m.vdisplay / 2,
             virtual_eye_width := m.hdisplay, virtual_eye_height := m.vdisplay,
             right_eye_x := 0, left_eye_y := m.vdisplay / 2 } := by
  simp [get_layout_for_mode, h, DRM_MODE_FLAG_3D_NONE,
    DRM_MODE_FLAG_3D_SIDE_BY_SIDE_HALF, DRM_MODE_FLAG_3D_SIDE_BY_SIDE_FULL,
    DRM_MODE_FLAG_3D_TOP_AND_BOTTOM]

/-- Evaluation of the layout calculator on the frame-packing branch. -/
lemma layout_of_fp (m : ModeInfo)
    (h : m.flags &&& DRM_MODE_FLAG_3D_MASK = DRM_MODE_FLAG_3D_FRAME_PACKING) :
    get_layout_for_mode m =
      some { buffer_width := m.hdisplay, buffer_height := m.vtotal + m.vdisplay,
             eye_width := m.hdisplay, eye_height := m.vdisplay,
             virtual_eye_width := m.hdisplay, virtual_eye_height := m.vdisplay,
             right_eye_x := 0, left_eye_y := m.vtotal } := by
  simp [get_layout_for_mode, h, DRM_MODE_FLAG_3D_NONE,
    DRM_MODE_FLAG_3D_SIDE_BY_SIDE_HALF, DRM_MODE_FLAG_3D_SIDE_BY_SIDE_FULL,
    DRM_MODE_FLAG_3D_TOP_AND_BOTTOM, DRM_MODE_FLAG_3D_FRAME_PACKING]

/-- The layout calculator hits the `assert(0)` branch when the masked flags
are none of the five handled values. -/
lemma layout_of_unhandled (m : ModeInfo)
    (h0 : m.flags &&& DRM_MODE_FLAG_3D_MASK ≠ DRM_MODE_FLAG_3D_NONE)
    (h1 : m.flags &&& DRM_MODE_FLAG_3D_MASK ≠ DRM_MODE_FLAG_3D_SIDE_BY_SIDE_HALF)
    (h2 : m.flags &&& DRM_MODE_FLAG_3D_MASK ≠ DRM_MODE_FLAG_3D_SIDE_BY_SIDE_FULL)
    (h3 : m.flags &&& DRM_MODE_FLAG_3D_MASK ≠ DRM_MODE_FLAG_3D_TOP_AND_BOTTOM)
    (h4 : m.flags &&& DRM_MODE_FLAG_3D_MASK ≠ DRM_MODE_FLAG_3D_FRAME_PACKING) :
    get_layout_for_mode m = none := by
  simp [get_layout_for_mode, h0, h1, h2, h3, h4]

/-- Claim C1 (corrected): the layout calculator has a defined geometry rule
exactly for the five ranked packing tags (None, SideBySideHalf,
SideBySideFull, TopAndBottom, FramePacking); for the four remaining tags of
the enumeration (FieldAlternative, LineAlternative, LDepth,
LDepthGfxGfxDepth) it reaches the fatal `assert(0)` branch. -/
theorem layout_defined_iff_ranked_packing (m : ModeInfo) :
    ((m.flags &&& DRM_MODE_FLAG_3D_MASK = DRM_MODE_FLAG_3D_NONE ∨
      m.flags &&& DRM_MODE_FLAG_3D_MASK = DRM_MODE_FLAG_3D_SIDE_BY_SIDE_HALF ∨
      m.flags &&& DRM_MODE_FLAG_3D_MASK = DRM_MODE_FLAG_3D_SIDE_BY_SIDE_FULL ∨
      m.flags &&& DRM_MODE_FLAG_3D_MASK = DRM_MODE_FLAG_3D_TOP_AND_BOTTOM ∨
      m.flags &&& DRM_MODE_FLAG_3D_MASK = DRM_MODE_FLAG_3D_FRAME_PACKING) →
      (get_layout_for_mode m).isSome = true) ∧
    ((m.flags &&& DRM_MODE_FLAG_3D_MASK = DRM_MODE_FLAG_3D_FIELD_ALTERNATIVE ∨
      m.flags &&& DRM_MODE_FLAG_3D_MASK = DRM_MODE_FLAG_3D_LINE_ALTERNATIVE ∨
      m.flags &&& DRM_MODE_FLAG_3D_MASK = DRM_MODE_FLAG_3D_L_DEPTH ∨
      m.flags &&& DRM_MODE_FLAG_3D_MASK = DRM_MODE_FLAG_3D_L_DEPTH_GFX_GFX_DEPTH) →
      get_layout_for_mode m = none) := by
  constructor
  · rintro (h | h | h | h | h)
    · rw [layout_of_none3d m h]; rfl
    · rw [layout_of_sbsh m h]; rfl
    · rw [layout_of_sbsf m h]; rfl
    · rw [layout_of_tb m h]; rfl
    · rw [layout_of_fp m h]; rfl
  · rintro (h | h | h | h) <;>
      exact layout_of_unhandled m (by rw [h]; decide) (by rw [h]; decide)
        (by rw [h]; decide) (by rw [h]; decide) (by rw [h]; decide)

/-- Witness for C1: the amended theorem applied at one concrete mode per
enumerated packing tag. -/
theorem layout_defined_iff_ranked_packing_witness :
    (get_layout_for_mode ⟨1920, 1080, 1125, 0x00000⟩).isSome = true ∧
    (get_layout_for_mode ⟨1920, 1080, 1125, 0x20000⟩).isSome = true ∧
    (get_layout_for_mode ⟨1920, 1080, 1125, 0x10000⟩).isSome = true ∧
    (get_layout_for_mode ⟨1920, 1080, 1125, 0x1C000⟩).isSome = true ∧
    (get_layout_for_mode ⟨1920, 1080, 1125, 0x04000⟩).isSome = true ∧
    get_layout_for_mode ⟨1920, 1080, 1125, 0x08000⟩ = none ∧
    get_layout_for_mode ⟨1920, 1080, 1125, 0x0C000⟩ = none ∧
    get_layout_for_mode ⟨1920, 1080, 1125, 0x14000⟩ = none ∧
    get_layout_for_mode ⟨1920, 1080, 1125, 0x18000⟩ = none :=
  ⟨(layout_defined_iff_ranked_packing _).1 (Or.inl (by decide)),
   (layout_defined_iff_ranked_packing _).1 (Or.inr (Or.inl (by decide))),
   (layout_defined_iff_ranked_packing _).1 (Or.inr (Or.inr (Or.inl (by decide)))),
   (layout_defined_iff_ranked_packing _).1 (Or.inr (Or.inr (Or.inr (Or.inl (by decide))))),
   (layout_defined_iff_ranked_packing _).1 (Or.inr (Or.inr (Or.inr (Or.inr (by decide))))),
   (layout_defined_iff_ranked_packing _).2 (Or.inl (by decide)),
   (layout_defined_iff_ranked_packing _).2 (Or.inr (Or.inl (by decide))),
   (layout_defined_iff_ranked_packing _).2 (Or.inr (Or.inr (Or.inl (by decide)))),
   (layout_defined_iff_ranked_packing _).2 (Or.inr (Or.inr (Or.inr (by decide))))⟩

/-- Counterexample for C1 as stated: FieldAlternative is in the fixed
enumeration (the `stereo_modes` table maps it to short name `fa`), yet the
layout calculator reaches the `assert(0)` branch on it instead of producing
a defined geometry. -/
theorem layout_field_alternative_hits_assert :
    get_stereo_mode 0x8000 =
      some { mode_number := 0x8000, short_name := "fa", long_name := "field alternative" } ∧
    get_layout_for_mode ⟨1920, 1080, 1125, 0x8000⟩ = none := by
  decide

/-- Claim C3 (corrected): the exact identities hold unconditionally for
SideBySideFull (`eye_width * 2 = buffer_width`) and FramePacking
(`buffer_height = vtotal + vdisplay`); for SideBySideHalf and TopAndBottom
the halved dimension is computed by integer division, so the doubling
identity holds exactly when the active dimension is even, and in general
only the inequality `eye * 2 ≤ buffer` holds. -/
theorem layout_geometry_identities (m : ModeInfo) (l : ModeLayout)
    (h : get_layout_for_mode m = some l) :
    (m.flags &&& DRM_MODE_FLAG_3D_MASK = DRM_MODE_FLAG_3D_SIDE_BY_SIDE_FULL →
      l.eye_width * 2 = l.buffer_width) ∧
    (m.flags &&& DRM_MODE_FLAG_3D_MASK = DRM_MODE_FLAG_3D_FRAME_PACKING →
      l.buffer_height = m.vtotal + m.vdisplay) ∧
    (m.flags &&& DRM_MODE_FLAG_3D_MASK = DRM_MODE_FLAG_3D_SIDE_BY_SIDE_HALF →
      l.eye_width * 2 ≤ l.buffer_width ∧
      (2 ∣ m.hdisplay → l.eye_width * 2 = l.buffer_width)) ∧
    (m.flags &&& DRM_MODE_FLAG_3D_MASK = DRM_MODE_FLAG_3D_TOP_AND_BOTTOM →
      l.eye_height * 2 ≤ l.buffer_height ∧
      (2 ∣ m.vdisplay → l.eye_height * 2 = l.buffer_height)) := by
  refine ⟨fun hm => ?_, fun hm => ?_, fun hm => ?_, fun hm => ?_⟩
  · rw [layout_of_sbsf m hm] at h
    cases h
    rfl
  · rw [layout_of_fp m hm] at h
    cases h
    rfl
  · rw [layout_of_sbsh m hm] at h
    cases h
    dsimp only
    omega
  · rw [layout_of_tb m hm] at h
    cases h
    dsimp only
    omega

/-- Witness for C3: the amended theorem applied at a concrete even-sized
side-by-side-half mode. -/
theorem layout_geometry_identities_witness :
    get_layout_for_mode ⟨1920, 1080, 1125, 0x20000⟩ =
      some { buffer_width := 1920, buffer_height := 1080, eye_width := 960,
             eye_height := 1080, virtual_eye_width := 1920,
             virtual_eye_height := 1080, right_eye_x := 960, left_eye_y := 0 } ∧
    (960 : Nat) * 2 = 1920 :=
  ⟨by decide,
   ((layout_geometry_identities ⟨1920, 1080, 1125, 0x20000⟩
      { buffer_width := 1920, buffer_height := 1080, eye_width := 960,
        eye_height := 1080, virtual_eye_width := 1920,
        virtual_eye_height := 1080, right_eye_x := 960, left_eye_y := 0 }
      (by decide)).2.2.1 (by decide)).2 (by decide)⟩

/-- Counterexample for C3 as stated: a side-by-side-half mode with odd active
width 1919 gets `eye_width = 959` by integer division, and
`eye_width * 2 = 1918 ≠ 1919 = buffer_width`. -/
theorem layout_sbsh_odd_width_identity_fails :
    get_layout_for_mode ⟨1919, 1080, 1125, 0x20000⟩ =
      some { buffer_width := 1919, buffer_height := 1080, eye_width := 959,
             eye_height := 1080, virtual_eye_width := 1919,
             virtual_eye_height := 1080, right_eye_x := 959, left_eye_y := 0 } ∧
    (959 : Nat) * 2 ≠ 1919 := by
  decide

/-- Claim C10 (confirmed): for the four genuinely stereoscopic packings both
eye viewports lie inside the allocated buffer, and for the None packing the
right eye is placed at `right_eye_x = buffer_width` (off-buffer). -/
theorem layout_viewports_within_buffer (m : ModeInfo) (l : ModeLayout)
    (h : get_layout_for_mode m = some l) :
    ((m.flags &&& DRM_MODE_FLAG_3D_MASK = DRM_MODE_FLAG_3D_SIDE_BY_SIDE_HALF ∨
      m.flags &&& DRM_MODE_FLAG_3D_MASK = DRM_MODE_FLAG_3D_SIDE_BY_SIDE_FULL ∨
      m.flags &&& DRM_MODE_FLAG_3D_MASK = DRM_MODE_FLAG_3D_TOP_AND_BOTTOM ∨
      m.flags &&& DRM_MODE_FLAG_3D_MASK = DRM_MODE_FLAG_3D_FRAME_PACKING) →
      l.right_eye_x + l.eye_width ≤ l.buffer_width ∧
      l.left_eye_y + l.eye_height ≤ l.buffer_height) ∧
    (m.flags &&& DRM_MODE_FLAG_3D_MASK = DRM_MODE_FLAG_3D_NONE →
      l.right_eye_x = l.buffer_width) := by
  constructor
  · rintro (hm | hm | hm | hm)
    · rw [layout_of_sbsh m hm] at h
      cases h
      constructor <;> simp only <;> omega
    · rw [layout_of_sbsf m hm] at h
      cases h
      constructor <;> simp only <;> omega
    · rw [layout_of_tb m hm] at h
      cases h
      constructor <;> simp only <;> omega
    · rw [layout_of_fp m hm] at h
      cases h
      constructor <;> simp only <;> omega
  · intro hm
    rw [layout_of_none3d m hm] at h
    cases h
    rfl

/-- Witness for C10: the theorem applied at a concrete frame-packing mode
(the spec's own example: active 1920x1080, total height 1125). -/
theorem layout_viewports_within_buffer_witness :
    ((0 : Nat) + 1920 ≤ 1920 ∧ (1125 : Nat) + 1080 ≤ 2205) ∧
    get_layout_for_mode ⟨1920, 1080, 1125, 0x4000⟩ =
      some { buffer_width := 1920, buffer_height := 2205, eye_width := 1920,
             eye_height := 1080, virtual_eye_width := 1920,
             virtual_eye_height := 1080, right_eye_x := 0, left_eye_y := 1125 } :=
  ⟨(layout_viewports_within_buffer ⟨1920, 1080, 1125, 0x4000⟩
      { buffer_width := 1920, buffer_height := 2205, eye_width := 1920,
        eye_height := 1080, virtual_eye_width := 1920,
        virtual_eye_height := 1080, right_eye_x := 0, left_eye_y := 1125 }
      (by decide)).1 (Or.inr (Or.inr (Or.inr (by decide)))),
   by decide⟩

/-! ## ModeSelector lemmas -/

/-- The rank search never returns anything below `-1`. -/
lemma rank_search_ge : ∀ (l : List Nat) (layout i : Nat), -1 ≤ rank_search l layout i := by
  intro l
  induction l with
  | nil => intro layout i; simp [rank_search]
  | cons r rest ih =>
    intro layout i
    rw [rank_search]
    split
    · omega
    · exact ih layout (i + 1)

/-- Every rank is at least `-1`. -/
lemma get_mode_rank_ge (x : Option ModeInfo) : -1 ≤ get_mode_rank x := by
  cases x with
  | none => simp [get_mode_rank]
  | some m => exact rank_search_ge mode_ranks (m.flags &&& DRM_MODE_FLAG_3D_MASK) 0

/-- With no requested layout, the `find_mode` loop is exactly the
strictly-greater-rank running-best recursion. -/
lemma find_mode_from_no_layout (options : StereoOptions)
    (h : options.stereo_layout = none) :
    ∀ (modes : List ModeInfo) (old : Option ModeInfo),
      find_mode_from options modes old = some (run_best old modes) := by
  intro modes
  induction modes with
  | nil => intro old; rfl
  | cons m rest ih =>
    intro old
    have hge := get_mode_rank_ge old
    by_cases hlt : get_mode_rank old < get_mode_rank (some m)
    · have hP : decide (get_mode_rank (some m) ≠ -1 ∧
          get_mode_rank old < get_mode_rank (some m)) = true := by
        rw [decide_eq_true_eq]
        exact ⟨by omega, hlt⟩
      simp only [find_mode_from, is_chosen_mode, h, hP, run_best, if_pos hlt]
      exact ih (some m)
    · have hP : decide (get_mode_rank (some m) ≠ -1 ∧
          get_mode_rank old < get_mode_rank (some m)) = false := by
        rw [decide_eq_false_iff_not]
        rintro ⟨-, h2⟩
        exact hlt h2
      simp only [find_mode_from, is_chosen_mode, h, hP, run_best, if_neg hlt]
      exact ih old

/-- Characterization of the running-best recursion: either nothing beats the
incoming candidate, or the result is the first element whose rank strictly
exceeds everything before it and is maximal over the whole list. -/
lemma run_best_spec : ∀ (modes : List ModeInfo) (old : Option ModeInfo),
    (run_best old modes = old ∧
      ∀ m ∈ modes, get_mode_rank (some m) ≤ get_mode_rank old) ∨
    (∃ pre a suf, modes = pre ++ a :: suf ∧ run_best old modes = some a ∧
      get_mode_rank old < get_mode_rank (some a) ∧
      (∀ p ∈ pre, get_mode_rank (some p) < get_mode_rank (some a)) ∧
      (∀ m ∈ modes, get_mode_rank (some m) ≤ get_mode_rank (some a)))
  | [], old => Or.inl ⟨rfl, by simp⟩
  | m :: rest, old => by
    by_cases hlt : get_mode_rank old < get_mode_rank (some m)
    · have hrb : run_best old (m :: rest) = run_best (some m) rest := by
        rw [run_best, if_pos hlt]
      rcases run_best_spec rest (some m) with ⟨heq, hall⟩ |
        ⟨pre, a, suf, hdec, heq, hlt2, hpre, hall⟩
      · refine Or.inr ⟨[], m, rest, rfl, by rw [hrb, heq], hlt, by simp, ?_⟩
        intro x hx
        rcases List.mem_cons.mp hx with rfl | hx
        · exact le_refl _
        · exact hall x hx
      · refine Or.inr ⟨m :: pre, a, suf, by rw [hdec, List.cons_append],
          by rw [hrb, heq], lt_trans hlt hlt2, ?_, ?_⟩
        · intro p hp
          rcases List.mem_cons.mp hp with rfl | hp
          · exact hlt2
          · exact hpre p hp
        · intro x hx
          rcases List.mem_cons.mp hx with rfl | hx
          · exact le_of_lt hlt2
          · exact hall x hx
    · have hrb : run_best old (m :: rest) = run_best old rest := by
        rw [run_best, if_neg hlt]
      rcases run_best_spec rest old with ⟨heq, hall⟩ |
        ⟨pre, a, suf, hdec, heq, hlt2, hpre, hall⟩
      · refine Or.inl ⟨by rw [hrb, heq], ?_⟩
        intro x hx
        rcases List.mem_cons.mp hx with rfl | hx
        · omega
        · exact hall x hx
      · refine Or.inr ⟨m :: pre, a, suf, by rw [hdec, List.cons_append],
          by rw [hrb, heq], hlt2, ?_, ?_⟩
        · intro p hp
          rcases List.mem_cons.mp hp with rfl | hp
          · omega
          · exact hpre p hp
        · intro x hx
          rcases List.mem_cons.mp hx with rfl | hx
          · omega
          · exact hall x hx

/-- Claim C2 (confirmed): with no requested layout, the selector ranks
packings by the fixed total order None(0) < SideBySideHalf(1) <
TopAndBottom(2) < SideBySideFull(3) < FramePacking(4), all other packings
rank `-1`; it fails exactly when every advertised mode is unranked, and
otherwise returns a mode of maximal rank such that every earlier mode has a
strictly smaller rank (so among equal ranks the first in input order wins
and an unranked mode is never selected). -/
theorem find_mode_selects_first_max_rank (modes : List ModeInfo)
    (options : StereoOptions) (h : options.stereo_layout = none) :
    rank3d DRM_MODE_FLAG_3D_NONE = 0 ∧
    rank3d DRM_MODE_FLAG_3D_SIDE_BY_SIDE_HALF = 1 ∧
    rank3d DRM_MODE_FLAG_3D_TOP_AND_BOTTOM = 2 ∧
    rank3d DRM_MODE_FLAG_3D_SIDE_BY_SIDE_FULL = 3 ∧
    rank3d DRM_MODE_FLAG_3D_FRAME_PACKING = 4 ∧
    rank3d DRM_MODE_FLAG_3D_FIELD_ALTERNATIVE = -1 ∧
    rank3d DRM_MODE_FLAG_3D_LINE_ALTERNATIVE = -1 ∧
    rank3d DRM_MODE_FLAG_3D_L_DEPTH = -1 ∧
    rank3d DRM_MODE_FLAG_3D_L_DEPTH_GFX_GFX_DEPTH = -1 ∧
    ((find_mode modes options = some none ∧
       ∀ m ∈ modes, get_mode_rank (some m) = -1) ∨
     (∃ pre a suf, modes = pre ++ a :: suf ∧
        find_mode modes options = some (some a) ∧
        0 ≤ get_mode_rank (some a) ∧
        (∀ m ∈ modes, get_mode_rank (some m) ≤ get_mode_rank (some a)) ∧
        (∀ p ∈ pre, get_mode_rank (some p) < get_mode_rank (some a)))) := by
  refine ⟨by decide, by decide, by decide, by decide, by decide,
    by decide, by decide, by decide, by decide, ?_⟩
  have hfm : find_mode modes options = some (run_best none modes) :=
    find_mode_from_no_layout options h modes none
  have hnone : get_mode_rank none = -1 := rfl
  rcases run_best_spec modes none with ⟨heq, hall⟩ |
    ⟨pre, a, suf, hdec, heq, hlt, hpre, hall⟩
  · refine Or.inl ⟨by rw [hfm, heq], ?_⟩
    intro m hm
    have h1 := hall m hm
    have h2 := get_mode_rank_ge (some m)
    omega
  · exact Or.inr ⟨pre, a, suf, hdec, by rw [hfm, heq], by omega, hall, hpre⟩

/-- Witness for C2: the theorem applied to the spec's example list
[None, SideBySideHalf, TopAndBottom] with no requested layout. -/
theorem find_mode_selects_first_max_rank_witness :
    (({ card := none, stereo_layout := none, connector := 0 } :
        StereoOptions).stereo_layout = none) ∧
    (rank3d DRM_MODE_FLAG_3D_NONE = 0 ∧
     rank3d DRM_MODE_FLAG_3D_SIDE_BY_SIDE_HALF = 1 ∧
     rank3d DRM_MODE_FLAG_3D_TOP_AND_BOTTOM = 2 ∧
     rank3d DRM_MODE_FLAG_3D_SIDE_BY_SIDE_FULL = 3 ∧
     rank3d DRM_MODE_FLAG_3D_FRAME_PACKING = 4 ∧
     rank3d DRM_MODE_FLAG_3D_FIELD_ALTERNATIVE = -1 ∧
     rank3d DRM_MODE_FLAG_3D_LINE_ALTERNATIVE = -1 ∧
     rank3d DRM_MODE_FLAG_3D_L_DEPTH = -1 ∧
     rank3d DRM_MODE_FLAG_3D_L_DEPTH_GFX_GFX_DEPTH = -1 ∧
     ((find_mode [⟨1920, 1080, 1125, 0x00000⟩, ⟨1920, 1080, 1125, 0x20000⟩,
          ⟨1920, 1080, 1125, 0x1C000⟩]
          { card := none, stereo_layout := none, connector := 0 } = some none ∧
        ∀ m ∈ [(⟨1920, 1080, 1125, 0x00000⟩ : ModeInfo),
            ⟨1920, 1080, 1125, 0x20000⟩, ⟨1920, 1080, 1125, 0x1C000⟩],
          get_mode_rank (some m) = -1) ∨
      (∃ pre a suf,
         [(⟨1920, 1080, 1125, 0x00000⟩ : ModeInfo), ⟨1920, 1080, 1125, 0x20000⟩,
           ⟨1920, 1080, 1125, 0x1C000⟩] = pre ++ a :: suf ∧
         find_mode [⟨1920, 1080, 1125, 0x00000⟩, ⟨1920, 1080, 1125, 0x20000⟩,
           ⟨1920, 1080, 1125, 0x1C000⟩]
           { card := none, stereo_layout := none, connector := 0 } =
             some (some a) ∧
         0 ≤ get_mode_rank (some a) ∧
         (∀ m ∈ [(⟨1920, 1080, 1125, 0x00000⟩ : ModeInfo),
             ⟨1920, 1080, 1125, 0x20000⟩, ⟨1920, 1080, 1125, 0x1C000⟩],
           get_mode_rank (some m) ≤ get_mode_rank (some a)) ∧
         (∀ p ∈ pre, get_mode_rank (some p) < get_mode_rank (some a))))) :=
  ⟨rfl,
   find_mode_selects_first_max_rank
     [⟨1920, 1080, 1125, 0x00000⟩, ⟨1920, 1080, 1125, 0x20000⟩,
       ⟨1920, 1080, 1125, 0x1C000⟩]
     { card := none, stereo_layout := none, connector := 0 } rfl⟩

/-- When a layout is requested and no advertised mode's short name matches
it, every iteration of the `find_mode` loop leaves the running best
unchanged. -/
lemma find_mode_from_all_filtered (options : StereoOptions) (layout : String)
    (h1 : options.stereo_layout = some layout) :
    ∀ (modes : List ModeInfo) (old : Option ModeInfo),
      (∀ m ∈ modes, ∃ sm,
        get_stereo_mode (m.flags &&& DRM_MODE_FLAG_3D_MASK) = some sm ∧
        sm.short_name ≠ layout) →
      find_mode_from options modes old = some old := by
  intro modes
  induction modes with
  | nil => intro old _; rfl
  | cons m rest ih =>
    intro old h2
    obtain ⟨sm, hsm, hne⟩ := h2 m (List.mem_cons_self m rest)
    have hc : is_chosen_mode m options old = some false := by
      simp only [is_chosen_mode, h1, hsm, if_pos hne]
    simp only [find_mode_from, hc]
    exact ih old (fun x hx => h2 x (List.mem_cons_of_mem m hx))

/-- Claim C4 (confirmed): when the requested layout name matches no
advertised mode's packing short name, the selector returns `-ENOENT`
(NotFound), regardless of the ranks of the advertised modes. -/
theorem find_mode_requested_absent_not_found (modes : List ModeInfo)
    (options : StereoOptions) (layout : String)
    (h1 : options.stereo_layout = some layout)
    (h2 : ∀ m ∈ modes, ∃ sm,
      get_stereo_mode (m.flags &&& DRM_MODE_FLAG_3D_MASK) = some sm ∧
      sm.short_name ≠ layout) :
    find_mode modes options = some none :=
  find_mode_from_all_filtered options layout h1 modes none h2

/-- Witness for C4: a frame-packing mode (rank 4, the highest) is advertised
but the requested layout is `sbsh`, so the selector reports NotFound. -/
theorem find_mode_requested_absent_not_found_witness :
    (({ card := none, stereo_layout := some "sbsh", connector := 0 } :
        StereoOptions).stereo_layout = some "sbsh") ∧
    get_mode_rank (some ⟨1920, 1080, 1125, 0x4000⟩) = 4 ∧
    find_mode [⟨1920, 1080, 1125, 0x4000⟩]
      { card := none, stereo_layout := some "sbsh", connector := 0 } =
        some none :=
  ⟨rfl, by decide,
   find_mode_requested_absent_not_found [⟨1920, 1080, 1125, 0x4000⟩]
     { card := none, stereo_layout := some "sbsh", connector := 0 } "sbsh" rfl
     (by
       intro m hm
       simp only [List.mem_singleton] at hm
       subst hm
       exact ⟨{ mode_number := 0x4000, short_name := "fp",
                long_name := "frame packing" }, by decide, by decide⟩)⟩

/-! ## OutputBinder lemmas -/

/-- The connector returned by `get_connector` is the first fetched connector
passing the identifier filter; the connection status plays no part. -/
lemma get_connector_spec (getConn : Nat → Option Connector)
    (options : StereoOptions) :
    ∀ (ids : List Nat) (c : Connector),
      get_connector getConn ids options = some c →
      ∃ pre i suf, ids = pre ++ i :: suf ∧ getConn i = some c ∧
        conn_matches options c = true ∧
        ∀ p ∈ pre, ∃ cp, getConn p = some cp ∧ conn_matches options cp = false
  | [], c, h => by simp [get_connector] at h
  | i :: rest, c, h => by
    rw [get_connector] at h
    cases hgc : getConn i with
    | none => rw [hgc] at h; exact absurd h (by simp)
    | some conn =>
      rw [hgc] at h
      dsimp only at h
      by_cases hm : conn_matches options conn = true
      · rw [if_pos hm] at h
        obtain rfl : conn = c := by injection h
        exact ⟨[], i, rest, rfl, hgc, hm, by simp⟩
      · rw [if_neg hm] at h
        obtain ⟨pre, j, suf, hdec, hj, hc, hpre⟩ :=
          get_connector_spec getConn options rest c h
        refine ⟨i :: pre, j, suf, by rw [hdec, List.cons_append], hj, hc, ?_⟩
        intro p hp
        rcases List.mem_cons.mp hp with rfl | hp
        · exact ⟨conn, hgc, by simpa using hm⟩
        · exact hpre p hp

/-- Claim C5 (corrected): the binder picks the first enumerated connector
matching the optional user identifier, without checking whether it is
connected; the connection check happens only afterwards in
`stereo_setup_dev`, which fails with `-ENOENT` when that one connector is
not connected — even if a later connected connector exists. -/
theorem get_connector_first_id_match (getConn : Nat → Option Connector)
    (ids : List Nat) (options : StereoOptions) (c : Connector)
    (h : get_connector getConn ids options = some c) :
    (∃ pre i suf, ids = pre ++ i :: suf ∧ getConn i = some c ∧
       conn_matches options c = true ∧
       ∀ p ∈ pre, ∃ cp, getConn p = some cp ∧
         conn_matches options cp = false) ∧
    (∀ (getEnc : Nat → Option Encoder) (res : DrmRes),
       c.connection ≠ DRM_MODE_CONNECTED →
       stereo_setup_dev getEnc res c options =
         some (Except.error SetupError.notConnected)) := by
  refine ⟨get_connector_spec getConn options ids c h, ?_⟩
  intro getEnc res hcon
  rw [stereo_setup_dev, if_pos hcon]

/-- Concrete discovery environment used for the C5 witness and
counterexample: connector 1 is enumerated first and is disconnected,
connector 2 follows and is connected, both advertising a top-and-bottom
mode. -/
def c5_mode : ModeInfo := ⟨1920, 1080, 1125, 0x1C000⟩

/-- First enumerated connector: id 1, disconnected. -/
def c5_conn1 : Connector :=
  { connector_id := 1, connection := DRM_MODE_DISCONNECTED, encoder_id := 0,
    encoders := [], modes := [c5_mode] }

/-- Second enumerated connector: id 2, connected. -/
def c5_conn2 : Connector :=
  { connector_id := 2, connection := DRM_MODE_CONNECTED, encoder_id := 0,
    encoders := [], modes := [c5_mode] }

/-- The `drmModeGetConnector` oracle for the C5 scenario. -/
def c5_getConn : Nat → Option Connector := fun id =>
  if id = 1 then some c5_conn1 else if id = 2 then some c5_conn2 else none

/-- Options with no connector constraint and no requested layout. -/
def c5_options : StereoOptions :=
  { card := none, stereo_layout := none, connector := 0 }

/-- Device resources for the C5 scenario. -/
def c5_res : DrmRes := { connectors := [1, 2], crtcs := [3] }

/-- Witness for C5: the amended theorem applied to the concrete two-connector
environment. -/
theorem get_connector_first_id_match_witness :
    get_connector c5_getConn [1, 2] c5_options = some c5_conn1 ∧
    (∃ pre i suf, ([1, 2] : List Nat) = pre ++ i :: suf ∧
       c5_getConn i = some c5_conn1 ∧
       conn_matches c5_options c5_conn1 = true ∧
       ∀ p ∈ pre, ∃ cp, c5_getConn p = some cp ∧
         conn_matches c5_options cp = false) ∧
    stereo_setup_dev (fun _ => none) c5_res c5_conn1 c5_options =
      some (Except.error SetupError.notConnected) :=
  ⟨by decide,
   (get_connector_first_id_match c5_getConn [1, 2] c5_options c5_conn1
     (by decide)).1,
   (get_connector_first_id_match c5_getConn [1, 2] c5_options c5_conn1
     (by decide)).2 (fun _ => none) c5_res (by decide)⟩

/-- Counterexample for C5 as stated: with the first enumerated connector
disconnected and a later one connected, the binder picks the disconnected
first one (not the connected one), and setup then fails. -/
theorem get_connector_skips_connection_check :
    get_connector c5_getConn [1, 2] c5_options = some c5_conn1 ∧
    c5_conn1.connection = DRM_MODE_DISCONNECTED ∧
    c5_conn2.connection = DRM_MODE_CONNECTED ∧
    get_connector c5_getConn [1, 2] c5_options ≠ some c5_conn2 ∧
    stereo_setup_dev (fun _ => none) c5_res c5_conn1 c5_options =
      some (Except.error SetupError.notConnected) := by
  decide

/-! ## CLI theorem -/

/-- Claim C6 (code bug): the option string `"-c:l:h"` passed to `getopt`
omits `d`, so `-d <device-path>` is rejected as an unknown option and
`process_options` returns `EXIT_FAILURE` — even though the `switch` has a
(dead) `case 'd'` that would store the device path and `usage()` documents
`-d <device>`.  The other documented flags `-c`, `-l` and `-h` work. -/
theorem process_options_rejects_d :
    process_options ["-d", "/dev/dri/card1"] = ProcResult.fail ∧
    optstring_lookup stereo_optstring 'd' = none ∧
    apply_option { card := none, stereo_layout := none, connector := 0 } 'd'
        "/dev/dri/card1" =
      { card := some "/dev/dri/card1", stereo_layout := none, connector := 0 } ∧
    process_options ["-c", "7"] =
      ProcResult.ok { card := none, stereo_layout := none, connector := 7 } ∧
    process_options ["-l", "sbsh"] =
      ProcResult.ok { card := none, stereo_layout := some "sbsh", connector := 0 } ∧
    process_options ["-h"] = ProcResult.exitUsage := by
  decide

/-! ## Presenter theorems -/

/-- Claim C7 (corrected): when `drmModeAddFB` fails, `swap` only logs the
failure and returns: the presentation state (including the current
framebuffer/buffer pair and the saved CRTC configuration) is unchanged and
no modeset or flip is attempted, but the locked front buffer is NOT released
back to the surface — the lock leaks. -/
theorem swap_addfb_failure_no_release (st : SwapState) (env : SwapEnv)
    (h : env.addFB = none) :
    swap st env = (st, [SwapEvent.swapBuffers, SwapEvent.lockFrontBuffer env.bo,
      SwapEvent.addFB false]) ∧
    SwapEvent.releaseBuffer env.bo ∉ (swap st env).2 ∧
    SwapEvent.pageFlip true ∉ (swap st env).2 ∧
    SwapEvent.setCrtc true ∉ (swap st env).2 := by
  rcases env with ⟨b, afb, gc, sok, pok⟩
  cases h
  simp [swap]

/-- Witness for C7: the amended theorem applied at a concrete failing
registration. -/
theorem swap_addfb_failure_no_release_witness :
    swap ⟨none, false, 0, none⟩ ⟨7, none, some 5, true, true⟩ =
      (⟨none, false, 0, none⟩,
       [SwapEvent.swapBuffers, SwapEvent.lockFrontBuffer 7,
        SwapEvent.addFB false]) ∧
    SwapEvent.releaseBuffer 7 ∉
      (swap ⟨none, false, 0, none⟩ ⟨7, none, some 5, true, true⟩).2 ∧
    SwapEvent.pageFlip true ∉
      (swap ⟨none, false, 0, none⟩ ⟨7, none, some 5, true, true⟩).2 ∧
    SwapEvent.setCrtc true ∉
      (swap ⟨none, false, 0, none⟩ ⟨7, none, some 5, true, true⟩).2 :=
  swap_addfb_failure_no_release ⟨none, false, 0, none⟩ ⟨7, none, some 5, true, true⟩
    rfl

/-- Counterexample for C7 as stated: in a present call whose framebuffer
registration fails (buffer 9 was locked, a pair fb 11 / bo 7 is current),
the locked buffer 9 is not returned to the surface, contradicting the
claim that the presenter releases the buffer lock. -/
theorem swap_addfb_failure_keeps_lock :
    swap ⟨some 5, false, 11, some 7⟩ ⟨9, none, none, true, true⟩ =
      (⟨some 5, false, 11, some 7⟩,
       [SwapEvent.swapBuffers, SwapEvent.lockFrontBuffer 9,
        SwapEvent.addFB false]) ∧
    SwapEvent.releaseBuffer 9 ∉
      (swap ⟨some 5, false, 11, some 7⟩ ⟨9, none, none, true, true⟩).2 := by
  decide

/-- Claim C8 (confirmed): in every present call, a release of the previously
displayed framebuffer/buffer pair happens only after the completion event of
a successful flip request has been observed by the blocking wait — never
before — and the released pair is exactly the previously current one. -/
theorem swap_release_only_after_flip_complete (st : SwapState) (env : SwapEnv) :
    release_phase st.current_fb_id st.current_bo 0 (swap st env).2 = true := by
  rcases st with ⟨sc, ps, fb, bo⟩
  rcases env with ⟨b, afb, gc, sok, pok⟩
  cases afb <;> cases sc <;> cases sok <;> cases pok <;> cases bo <;>
    by_cases hfb : fb = 0 <;>
    simp [swap, swap_flip, set_initial_crtc, free_current_bo, release_phase, hfb]

/-- Once a configuration has been captured, a present call never modesets,
never captures again, and leaves the captured configuration untouched. -/
lemma swap_saved_some (st : SwapState) (env : SwapEnv) (c : Nat)
    (h : st.saved_crtc = some c) :
    (swap st env).1.saved_crtc = some c ∧
    has_modeset (swap st env).2 = false ∧
    has_capture (swap st env).2 = false := by
  rcases st with ⟨sc, ps, fb, bo⟩
  cases h
  rcases env with ⟨b, afb, gc, sok, pok⟩
  cases afb <;> cases pok <;> cases bo <;> by_cases hfb : fb = 0 <;>
    simp [swap, swap_flip, free_current_bo, has_modeset, has_capture, hfb]

/-- A present call that fails at `drmModeAddFB` changes nothing and performs
neither a capture nor a modeset. -/
lemma swap_addfb_none (st : SwapState) (env : SwapEnv)
    (ha : env.addFB = none) :
    (swap st env).1 = st ∧
    has_modeset (swap st env).2 = false ∧
    has_capture (swap st env).2 = false := by
  rcases env with ⟨b, afb, gc, sok, pok⟩
  cases ha
  simp [swap, has_modeset, has_capture]

/-- The first present call that reaches the display step while no
configuration is captured performs the capture and the modeset, and stores
exactly what `drmModeGetCrtc` returned. -/
lemma swap_saved_none_display (st : SwapState) (env : SwapEnv)
    (h : st.saved_crtc = none) (ha : env.addFB.isSome = true) :
    (swap st env).1.saved_crtc = env.getCrtc ∧
    has_modeset (swap st env).2 = true ∧
    has_capture (swap st env).2 = true := by
  rcases st with ⟨sc, ps, fb, bo⟩
  cases h
  rcases env with ⟨b, afb, gc, sok, pok⟩
  cases afb with
  | none => simp at ha
  | some fb_id =>
    cases sok <;> cases pok <;> cases bo <;> by_cases hfb : fb = 0 <;>
      simp [swap, set_initial_crtc, swap_flip, free_current_bo, has_modeset,
        has_capture, hfb]

/-- Runs starting from a captured configuration never modeset or capture and
preserve the capture. -/
lemma runSwaps_saved_some :
    ∀ (envs : List SwapEnv) (st : SwapState) (c : Nat),
      st.saved_crtc = some c →
      (runSwaps st envs).2.map has_modeset = List.replicate envs.length false ∧
      (runSwaps st envs).2.map has_capture = List.replicate envs.length false ∧
      (runSwaps st envs).1.saved_crtc = some c
  | [], st, c, h => by simp [runSwaps, h]
  | e :: es, st, c, h => by
    obtain ⟨h1, h2, h3⟩ := swap_saved_some st e c h
    obtain ⟨ih1, ih2, ih3⟩ := runSwaps_saved_some es (swap st e).1 c h1
    refine ⟨?_, ?_, ?_⟩ <;>
      simp [runSwaps, List.replicate_succ, h2, h3, ih1, ih2, ih3]

/-- Once the modeset is done, the expected pattern is all-false. -/
lemma modeset_pattern_done :
    ∀ es : List SwapEnv, modeset_pattern true es = List.replicate es.length false
  | [] => rfl
  | e :: es => by
    simp [modeset_pattern, List.replicate_succ, modeset_pattern_done es]

/-- Induction core for C9: over any run whose capture calls succeed, the
modeset and capture happen in exactly the first call that reaches the
display step, and the final captured configuration is the one read at that
moment. -/
lemma runSwaps_modeset_spec :
    ∀ (envs : List SwapEnv) (st0 : SwapState),
      st0.saved_crtc = none →
      (∀ e ∈ envs, e.getCrtc.isSome = true) →
      (runSwaps st0 envs).2.map has_modeset = modeset_pattern false envs ∧
      (runSwaps st0 envs).2.map has_capture = modeset_pattern false envs ∧
      (runSwaps st0 envs).1.saved_crtc = first_capture envs
  | [], st0, h0, _ => by simp [runSwaps, modeset_pattern, first_capture, h0]
  | e :: es, st0, h0, hc => by
    have hce := hc e (List.mem_cons_self e es)
    have hces : ∀ x ∈ es, x.getCrtc.isSome = true := fun x hx =>
      hc x (List.mem_cons_of_mem e hx)
    cases ha : e.addFB with
    | none =>
      obtain ⟨h1, h2, h3⟩ := swap_addfb_none st0 e ha
      have hsaved : (swap st0 e).1.saved_crtc = none := by rw [h1]; exact h0
      obtain ⟨ih1, ih2, ih3⟩ := runSwaps_modeset_spec es (swap st0 e).1 hsaved hces
      have hr : reaches_display e = false := by simp [reaches_display, ha]
      refine ⟨?_, ?_, ?_⟩ <;>
        simp [runSwaps, modeset_pattern, first_capture, hr, h2, h3, ih1, ih2, ih3]
    | some fb_id =>
      have hso : e.addFB.isSome = true := by rw [ha]; rfl
      obtain ⟨h1, h2, h3⟩ := swap_saved_none_display st0 e h0 hso
      obtain ⟨c, hc1⟩ := Option.isSome_iff_exists.mp hce
      have hsaved : (swap st0 e).1.saved_crtc = some c := by rw [h1, hc1]
      obtain ⟨l1, l2, l3⟩ := runSwaps_saved_some es (swap st0 e).1 c hsaved
      have hr : reaches_display e = true := by simp [reaches_display, ha]
      refine ⟨?_, ?_, ?_⟩
      · simp [runSwaps, modeset_pattern, hr, h2, l1, modeset_pattern_done]
      · simp [runSwaps, modeset_pattern, hr, h3, l2, modeset_pattern_done]
      · simp [runSwaps, first_capture, hr, l3, hc1]

/-- Claim C9 (corrected): per binding (starting with no captured
configuration), provided each call's `drmModeGetCrtc` capture succeeds,
exactly the first present call that reaches the display step performs the
modeset, and it captures the controller's pre-existing configuration at that
moment (no capture happens in earlier calls); every later call performs no
modeset (it uses the flip path), and the captured configuration is never
overwritten: the final saved configuration is the one read by the first
display-reaching call.  The success proviso is necessary: when
`drmModeGetCrtc` returns `NULL`, `saved_crtc` stays `NULL` and the next
display-reaching call modesets and captures again (see the
counterexample). -/
theorem swap_modeset_exactly_first_display_call (st0 : SwapState)
    (envs : List SwapEnv) (h0 : st0.saved_crtc = none)
    (hc : ∀ e ∈ envs, e.getCrtc.isSome = true) :
    (runSwaps st0 envs).2.map has_modeset = modeset_pattern false envs ∧
    (runSwaps st0 envs).2.map has_capture = modeset_pattern false envs ∧
    (runSwaps st0 envs).1.saved_crtc = first_capture envs :=
  runSwaps_modeset_spec envs st0 h0 hc

/-- Witness for C9: a run of three calls (the first fails at `drmModeAddFB`,
the next two succeed): only the second call modesets and captures, and the
captured configuration is the one read there (`5`), not the later one
(`6`). -/
theorem swap_modeset_exactly_first_display_call_witness :
    (runSwaps ⟨none, false, 0, none⟩
        [⟨7, none, some 5, true, true⟩, ⟨7, some 11, some 5, true, true⟩,
         ⟨8, some 12, some 6, true, true⟩]).2.map has_modeset =
      modeset_pattern false
        [⟨7, none, some 5, true, true⟩, ⟨7, some 11, some 5, true, true⟩,
         ⟨8, some 12, some 6, true, true⟩] ∧
    (runSwaps ⟨none, false, 0, none⟩
        [⟨7, none, some 5, true, true⟩, ⟨7, some 11, some 5, true, true⟩,
         ⟨8, some 12, some 6, true, true⟩]).2.map has_capture =
      modeset_pattern false
        [⟨7, none, some 5, true, true⟩, ⟨7, some 11, some 5, true, true⟩,
         ⟨8, some 12, some 6, true, true⟩] ∧
    (runSwaps ⟨none, false, 0, none⟩
        [⟨7, none, some 5, true, true⟩, ⟨7, some 11, some 5, true, true⟩,
         ⟨8, some 12, some 6, true, true⟩]).1.saved_crtc =
      first_capture
        [⟨7, none, some 5, true, true⟩, ⟨7, some 11, some 5, true, true⟩,
         ⟨8, some 12, some 6, true, true⟩] :=
  swap_modeset_exactly_first_display_call ⟨none, false, 0, none⟩
    [⟨7, none, some 5, true, true⟩, ⟨7, some 11, some 5, true, true⟩,
     ⟨8, some 12, some 6, true, true⟩] rfl (by decide)

/-- Counterexample for C9 as stated: when `drmModeGetCrtc` returns `NULL`
on the first present call that reaches the display step (both calls here
have a successful `drmModeAddFB`), `saved_crtc` stays `NULL`, so the second
— subsequent — present call performs a modeset and a capture again instead
of taking the page-flip path: the modeset happens in both calls, not
exactly the first, and the first capture is superseded. -/
theorem swap_modeset_repeats_after_failed_capture :
    reaches_display ⟨7, some 11, none, true, true⟩ = true ∧
    reaches_display ⟨8, some 12, some 6, true, true⟩ = true ∧
    (runSwaps ⟨none, false, 0, none⟩
        [⟨7, some 11, none, true, true⟩,
         ⟨8, some 12, some 6, true, true⟩]).2.map has_modeset =
      [true, true] ∧
    (runSwaps ⟨none, false, 0, none⟩
        [⟨7, some 11, none, true, true⟩,
         ⟨8, some 12, some 6, true, true⟩]).2.map has_capture =
      [true, true] ∧
    (runSwaps ⟨none, false, 0, none⟩
        [⟨7, some 11, none, true, true⟩,
         ⟨8, some 12, some 6, true, true⟩]).1.saved_crtc = some 6 := by
  decide

end StereoGears
